import Mathlib

/-!
Verification of the generate → verify → retry pipeline of `src/app.py`
(functions `verify_image`, lines 188–238, and `generate_with_auto_fix`,
lines 240–345, plus the `max_retries` policy of `process_and_update`,
line 356).

The two external model services (the worker image model and the inspector
model) are modelled as oracles indexed by the attempt number.  Python
strings are Lean `String`s, the sampling temperature is a rational number,
and the values produced by `json.loads` are modelled by the inductive
`JsonValue` below, together with executable translations of the Python
semantics the source relies on (truthiness, `str()` formatting, `dict.get`,
`str.strip`, substring test, and a JSON parser following the grammar
accepted by Python's `json.loads`).
-/

namespace App

/-- Images are opaque to the control logic; we only track their identity. -/
abbrev Img := Nat

/-- The values `json.loads` can produce.  JSON numbers keep their source
lexeme (the control logic never computes with numbers, it only compares the
`status` field against the string `"PASS"`). -/
inductive JsonValue where
  | null
  | bool (b : Bool)
  | num (lexeme : String)
  | str (s : String)
  | arr (elts : List JsonValue)
  | obj (fields : List (String × JsonValue))
deriving Repr

/-! ### Generic string helpers (Python semantics) -/

/-- Whether `pre` is an initial segment of `l` (used for `str.startswith`). -/
def listStartsWith : List Char → List Char → Bool
  | [], _ => true
  | _ :: _, [] => false
  | a :: as, b :: bs => if a = b then listStartsWith as bs else false

/-- Whether `needle` occurs inside `hay` (Python `needle in hay`). -/
def listContainsSub (needle : List Char) : List Char → Bool
  | [] => listStartsWith needle []
  | c :: cs => if listStartsWith needle (c :: cs) then true else listContainsSub needle cs

/-- Python `needle in hay` on strings. -/
def strContains (hay needle : String) : Bool :=
  listContainsSub needle.toList hay.toList

/-- Characters removed by Python `str.strip()` (ASCII whitespace set). -/
def pyWs (c : Char) : Bool :=
  c = ' ' || c = '\t' || c = '\n' || c = '\r' || c = '\x0b' || c = '\x0c'

/-- Python `str.strip()`. -/
def pyStripL (cs : List Char) : List Char :=
  ((cs.dropWhile pyWs).reverse.dropWhile pyWs).reverse

/-- Remove the last `n` characters (Python slice `[:-n]` tail part). -/
def listDropRight (n : Nat) (l : List Char) : List Char :=
  l.take (l.length - n)

/-! ### A JSON parser following Python `json.loads`

`json.loads` skips the four JSON whitespace characters, accepts the standard
JSON grammar plus the Python extensions `NaN`, `Infinity` and `-Infinity`,
rejects unescaped control characters inside strings, keeps the last binding
for duplicate object keys, and rejects trailing data.  Parsing is
fuel-indexed; the fuel is the input length plus one, which suffices because
every recursive call consumes at least one character. -/

/-- JSON whitespace (`json.loads` skips exactly these). -/
def jsonWs (c : Char) : Bool :=
  c = ' ' || c = '\t' || c = '\n' || c = '\r'

def skipWs (cs : List Char) : List Char := cs.dropWhile jsonWs

/-- Hexadecimal digit value. -/
def hexVal : Char → Option Nat
  | c =>
    if '0' ≤ c ∧ c ≤ '9' then some (c.toNat - 48)
    else if 'a' ≤ c ∧ c ≤ 'f' then some (c.toNat - 87)
    else if 'A' ≤ c ∧ c ≤ 'F' then some (c.toNat - 55)
    else none

/-- Body of a JSON string literal (after the opening quote), accumulating
parsed characters in reverse.  Surrogate pairs in `\uXXXX` escapes are
combined as Python does. -/
def parseStrAux : Nat → List Char → List Char → Option (String × List Char)
  | 0, _, _ => none
  | fuel + 1, acc, cs =>
    match cs with
    | [] => none
    | '"' :: rest => some (String.mk acc.reverse, rest)
    | '\\' :: esc =>
      match esc with
      | 'u' :: a :: b :: c :: d :: rest =>
        match hexVal a, hexVal b, hexVal c, hexVal d with
        | some ha, some hb, some hc, some hd =>
          let n := ((ha * 16 + hb) * 16 + hc) * 16 + hd
          if 0xD800 ≤ n ∧ n < 0xDC00 then
            match rest with
            | '\\' :: 'u' :: a2 :: b2 :: c2 :: d2 :: rest2 =>
              match hexVal a2, hexVal b2, hexVal c2, hexVal d2 with
              | some ha2, some hb2, some hc2, some hd2 =>
                let n2 := ((ha2 * 16 + hb2) * 16 + hc2) * 16 + hd2
                if 0xDC00 ≤ n2 ∧ n2 ≤ 0xDFFF then
                  let comb := 0x10000 + (n - 0xD800) * 0x400 + (n2 - 0xDC00)
                  parseStrAux fuel (Char.ofNat comb :: acc) rest2
                else parseStrAux fuel (Char.ofNat n2 :: Char.ofNat n :: acc) rest2
              | _, _, _, _ => none
            | _ => parseStrAux fuel (Char.ofNat n :: acc) rest
          else parseStrAux fuel (Char.ofNat n :: acc) rest
        | _, _, _, _ => none
      | '"' :: rest => parseStrAux fuel ('"' :: acc) rest
      | '\\' :: rest => parseStrAux fuel ('\\' :: acc) rest
      | '/' :: rest => parseStrAux fuel ('/' :: acc) rest
      | 'b' :: rest => parseStrAux fuel ('\x08' :: acc) rest
      | 'f' :: rest => parseStrAux fuel ('\x0c' :: acc) rest
      | 'n' :: rest => parseStrAux fuel ('\n' :: acc) rest
      | 'r' :: rest => parseStrAux fuel ('\r' :: acc) rest
      | 't' :: rest => parseStrAux fuel ('\t' :: acc) rest
      | _ => none
    | c :: rest => if c.toNat < 32 then none else parseStrAux fuel (c :: acc) rest

/-- Digits prefix of a character list. -/
def takeDigits (cs : List Char) : List Char × List Char :=
  (cs.takeWhile Char.isDigit, cs.dropWhile Char.isDigit)

/-- JSON number grammar: `-? (0 | [1-9][0-9]*) (. [0-9]+)? ([eE][+-]?[0-9]+)?`.
Returns the lexeme together with the remaining input. -/
def parseNum (cs : List Char) : Option (List Char × List Char) :=
  let (sign, cs1) :=
    match cs with
    | '-' :: r => (['-'], r)
    | _ => (([] : List Char), cs)
  match cs1 with
  | '0' :: r => some (sign ++ ['0'], r) |>.bind fun (ip, r) => parseFrac ip r
  | c :: _ =>
    if c.isDigit then
      let (ds, r) := takeDigits cs1
      parseFrac (sign ++ ds) r
    else none
  | [] => none
where
  parseFrac (ip : List Char) (r : List Char) : Option (List Char × List Char) :=
    match r with
    | '.' :: r2 =>
      let (ds, r3) := takeDigits r2
      if ds.isEmpty then none else parseExp (ip ++ '.' :: ds) r3
    | _ => parseExp ip r
  parseExp (m : List Char) (r : List Char) : Option (List Char × List Char) :=
    match r with
    | e :: r2 =>
      if e = 'e' ∨ e = 'E' then
        let (sg, r3) :=
          match r2 with
          | '+' :: r3 => (['+'], r3)
          | '-' :: r3 => (['-'], r3)
          | _ => (([] : List Char), r2)
        let (ds, r4) := takeDigits r3
        if ds.isEmpty then none else some (m ++ e :: sg ++ ds, r4)
      else some (m, r)
    | [] => some (m, r)

mutual

/-- One JSON value, positioned at a non-whitespace character. -/
def parseVal : Nat → List Char → Option (JsonValue × List Char)
  | 0, _ => none
  | fuel + 1, cs =>
    match cs with
    | '\x7b' :: rest =>
      match skipWs rest with
      | '\x7d' :: r2 => some (.obj [], r2)
      | r2 => parseMembers fuel r2 []
    | '[' :: rest =>
      match skipWs rest with
      | ']' :: r2 => some (.arr [], r2)
      | r2 => parseElems fuel r2 []
    | '"' :: rest =>
      (parseStrAux (rest.length + 1) [] rest).map fun p => (.str p.1, p.2)
    | 't' :: 'r' :: 'u' :: 'e' :: r => some (.bool true, r)
    | 'f' :: 'a' :: 'l' :: 's' :: 'e' :: r => some (.bool false, r)
    | 'n' :: 'u' :: 'l' :: 'l' :: r => some (.null, r)
    | 'N' :: 'a' :: 'N' :: r => some (.num "NaN", r)
    | 'I' :: 'n' :: 'f' :: 'i' :: 'n' :: 'i' :: 't' :: 'y' :: r =>
      some (.num "Infinity", r)
    | '-' :: 'I' :: 'n' :: 'f' :: 'i' :: 'n' :: 'i' :: 't' :: 'y' :: r =>
      some (.num "-Infinity", r)
    | _ => (parseNum cs).map fun p => (.num (String.mk p.1), p.2)

/-- Object members, positioned at the start of a key. -/
def parseMembers : Nat → List Char → List (String × JsonValue) →
    Option (JsonValue × List Char)
  | 0, _, _ => none
  | fuel + 1, cs, acc =>
    match cs with
    | '"' :: rest =>
      match parseStrAux (rest.length + 1) [] rest with
      | none => none
      | some (key, r1) =>
        match skipWs r1 with
        | ':' :: r2 =>
          match parseVal fuel (skipWs r2) with
          | none => none
          | some (v, r3) =>
            match skipWs r3 with
            | ',' :: r4 => parseMembers fuel (skipWs r4) ((key, v) :: acc)
            | '\x7d' :: r4 => some (.obj ((key, v) :: acc).reverse, r4)
            | _ => none
        | _ => none
    | _ => none

/-- Array elements, positioned at the start of a value. -/
def parseElems : Nat → List Char → List JsonValue →
    Option (JsonValue × List Char)
  | 0, _, _ => none
  | fuel + 1, cs, acc =>
    match parseVal fuel cs with
    | none => none
    | some (v, r1) =>
      match skipWs r1 with
      | ',' :: r2 => parseElems fuel (skipWs r2) (v :: acc)
      | ']' :: r2 => some (.arr (v :: acc).reverse, r2)
      | _ => none

end

/-- Python `json.loads`: parse one value, reject trailing data. -/
def jsonLoads (s : String) : Option JsonValue :=
  let cs := skipWs s.toList
  match parseVal (cs.length + 1) cs with
  | some (v, rest) => if (skipWs rest).isEmpty then some v else none
  | none => none

/-! ### Python value semantics used by the source -/

mutual

/-- Python `repr()` of a `json.loads` value (shape used for containers;
string escaping inside `repr` is not reproduced, which the control logic
never depends on). -/
def pyRepr : JsonValue → String
  | .null => "None"
  | .bool true => "True"
  | .bool false => "False"
  | .num lx => lx
  | .str s => "\x27" ++ s ++ "\x27"
  | .arr es => "[" ++ pyReprList es ++ "]"
  | .obj fs => "\x7b" ++ pyReprFields fs ++ "\x7d"

def pyReprList : List JsonValue → String
  | [] => ""
  | [v] => pyRepr v
  | v :: rest => pyRepr v ++ ", " ++ pyReprList rest

def pyReprFields : List (String × JsonValue) → String
  | [] => ""
  | [kv] => "\x27" ++ kv.1 ++ "\x27: " ++ pyRepr kv.2
  | kv :: rest => "\x27" ++ kv.1 ++ "\x27: " ++ pyRepr kv.2 ++ ", " ++ pyReprFields rest

end

/-- Python `str()` of a `json.loads` value, as used by f-string formatting. -/
def pyStr : JsonValue → String
  | .str s => s
  | v => pyRepr v

/-- Whether a number lexeme denotes zero (mantissa has digits, all zero). -/
def numIsZero (lx : String) : Bool :=
  let m := lx.toList.takeWhile fun c => !(c = 'e') && !(c = 'E')
  m.all (fun c => !(c.isDigit && !(c = '0'))) && m.any Char.isDigit

/-- Python truthiness of a `json.loads` value. -/
def pyTruthy : JsonValue → Bool
  | .null => false
  | .bool b => b
  | .num lx => !numIsZero lx
  | .str s => !(s = "")
  | .arr es => !es.isEmpty
  | .obj fs => !fs.isEmpty

/-- Python type name of a `json.loads` value (`json` turns a number with a
fraction, an exponent, `NaN` or an infinity into a `float`, everything
else into an `int`). -/
def pyTypeName : JsonValue → String
  | .null => "NoneType"
  | .bool _ => "bool"
  | .str _ => "str"
  | .arr _ => "list"
  | .obj _ => "dict"
  | .num lx =>
    if lx.toList.any (fun c => c = '.' || c = 'e' || c = 'E' || c.isAlpha)
    then "float" else "int"

/-- `dict.get` on the dictionary `json.loads` builds from an object: for a
duplicate key the binding written last wins. -/
def objGet (fields : List (String × JsonValue)) (k : String) : Option JsonValue :=
  match fields with
  | [] => none
  | kv :: rest =>
    match objGet rest k with
    | some v => some v
    | none => if kv.1 = k then some kv.2 else none

/-- Message of the `AttributeError` raised by `data.get(...)` when
`json.loads` produced something that is not a dictionary. -/
def noGetAttrMsg (v : JsonValue) : String :=
  "\x27" ++ pyTypeName v ++ "\x27 object has no attribute \x27get\x27"

/-! ### `verify_image` (src/app.py lines 188–238) -/

/-- The raw outcome of the inspector-model call made by `verify_image`:
either the call (or anything else inside its `try`) raised an exception
with the given `str(e)`, or it returned a response whose `.text` is
missing (`none`) or the given string. -/
inductive VerifierRaw where
  | exc (msg : String)
  | resp (text : Option String)

/-- Lines 219–224: strip a markdown code fence from the (already stripped)
response text.  Python `clean_text[7:-3]` and `clean_text[3:-3]`. -/
def stripMarkdownFence (s : String) : String :=
  let t := s.toList
  if listStartsWith "\x60\x60\x60json".toList t then
    String.mk (listDropRight 3 (t.drop 7))
  else if listStartsWith "\x60\x60\x60".toList t then
    String.mk (listDropRight 3 (t.drop 3))
  else String.mk t

/-- Line 220 then 221–224: `response.text.strip()` followed by fence
stripping gives the text handed to `json.loads`. -/
def cleanResponse (s : String) : String :=
  stripMarkdownFence (String.mk (pyStripL s.toList))

/-- Line 228: `data.get("status") == "PASS"`.  `dict.get` yields `None` for
a missing key, and only the exact string `"PASS"` compares equal. -/
def statusIsPass : Option JsonValue → Bool
  | some (.str s) => s = "PASS"
  | _ => false

/-- `verify_image` (lines 188–238), as a function of the configured mode
and the raw result of the inspector call.  Every branch of the source
returns a `(is_pass, reason)` pair; nothing escapes:
* mode `"OFF"` returns immediately (line 192–193);
* an exception anywhere inside the `try` is caught at lines 237–238;
* a missing/empty `response.text` hits line 235;
* a `json.JSONDecodeError` hits lines 232–234;
* valid JSON that is not a dictionary makes `data.get` raise
  `AttributeError`, which the inner `except json.JSONDecodeError` does not
  catch, so it falls through to the handler at lines 237–238;
* a dictionary answers via lines 228–231. -/
def verify_image (mode : String) (call : VerifierRaw) : Bool × JsonValue :=
  if mode = "OFF" then (true, .str "Skipped (User Request)")
  else
    match call with
    | .exc msg => (true, .str ("Inspector Error: " ++ msg ++ " (Pass)"))
    | .resp none => (true, .str "No Response (Pass)")
    | .resp (some t) =>
      if t = "" then (true, .str "No Response (Pass)")
      else
        match jsonLoads (cleanResponse t) with
        | none => (true, .str "JSON Error (Pass)")
        | some (.obj fields) =>
          if statusIsPass (objGet fields "status") then (true, .str "PASS")
          else (false, (objGet fields "reason").getD (.str "Unknown Rejection"))
        | some v => (true, .str ("Inspector Error: " ++ noGetAttrMsg v ++ " (Pass)"))

/-! ### `generate_with_auto_fix` (src/app.py lines 240–345) -/

/-- The response object of one worker-model call: the finish reasons of its
candidates (only the first is inspected, line 298–299), the `inline_data`
payload of each part (line 305–309), and the SDK-compatibility `image`
attribute (line 312–313; `none` covers both a missing attribute and a falsy
one). -/
structure GenResponse where
  candidates : List String
  parts : List (Option Img)
  imageAttr : Option Img
deriving Repr

/-- The raw outcome of one iteration's worker-model call: either the
`try` body raised an exception with the given `str(e)` (caught at lines
338–343), or the call returned a response. -/
inductive WorkerResult where
  | exc (msg : String)
  | resp (r : GenResponse)

/-- The configuration `generate_with_auto_fix` receives from its caller:
the instruction prompt, the configured sampling temperature, the inspector
mode and the retry budget. -/
structure Config where
  prompt : String
  temperature : ℚ
  verifyMode : String
  maxRetries : Nat

/-- Lines 296–303: a candidate whose `finish_reason` differs from `"STOP"`
aborts the attempt with a safety-block message. -/
def blockedReason (r : GenResponse) : Option String :=
  match r.candidates with
  | [] => none
  | fr :: _ => if fr = "STOP" then none else some ("⚠️ Safety Filter Blocked: " ++ fr)

/-- First `inline_data` payload among the response parts (lines 305–309). -/
def firstInline : List (Option Img) → Option Img
  | [] => none
  | some i :: _ => some i
  | none :: rest => firstInline rest

/-- Lines 305–313: scan the parts for an image, falling back to the
`response.image` attribute. -/
def extractImage (r : GenResponse) : Option Img :=
  match firstInline r.parts with
  | some i => some i
  | none => r.imageAttr

/-- Lines 255–259: the temperature of attempt `n` — on a retry a configured
temperature below `0.5` is raised to `0.65`. -/
def currentTemp (temperature : ℚ) (attempt : Nat) : ℚ :=
  if 0 < attempt ∧ temperature < 1/2 then 13/20 else temperature

/-- Lines 263–267: the fixed CSS-override suffix appended to every prompt. -/
def cssInstruction : String :=
  "\n# TECHNICAL OVERRIDE:\n" ++
  "Apply CSS: \x60writing-mode: horizontal-tb !important;\x60\n" ++
  "If bubbles are narrow, FORCE line breaks every 2-3 chars.\n"

/-- Lines 269–276: on a retry with a truthy recorded failure reason, the
reason is interpolated into an explicit corrective directive. -/
def retryInstruction (attempt : Nat) (lastError : JsonValue) : String :=
  if 0 < attempt ∧ pyTruthy lastError then
    "\n🚨 **PREVIOUS REJECTION REASON: " ++ pyStr lastError ++ "** 🚨\n" ++
    "You failed the Quality Assurance check.\n" ++
    "If the error was \x27Vertical Text\x27, force Horizontal text output.\n" ++
    "If the error was \x27Distortion\x27, preserve the original art strictly.\n"
  else ""

/-- Lines 279–283: the full prompt text of one attempt. -/
def promptAt (cfg : Config) (attempt : Nat) (lastError : JsonValue) : String :=
  cfg.prompt ++ cssInstruction ++ retryInstruction attempt lastError

/-- The value `generate_with_auto_fix` returns (`image × error`), together
with an observable trace of the loop: one prompt/temperature entry per
iteration of the `for` loop that enters the `try` body (each such iteration
issues at most one worker-model call), and the attempt indices at which
`verify_image` was invoked. -/
structure RunResult where
  image : Option Img
  err : Option String
  genCalls : Nat
  verifyCalls : Nat
  prompts : List String
  temps : List ℚ
  verifiedAttempts : List Nat
deriving Repr

/-- Record one more loop iteration (no verification) in front of a run. -/
def prependGen (pr : String) (tp : ℚ) (r : RunResult) : RunResult :=
  ⟨r.image, r.err, r.genCalls + 1, r.verifyCalls,
    pr :: r.prompts, tp :: r.temps, r.verifiedAttempts⟩

/-- Record one more loop iteration whose verification failed. -/
def prependVer (a : Nat) (pr : String) (tp : ℚ) (r : RunResult) : RunResult :=
  ⟨r.image, r.err, r.genCalls + 1, r.verifyCalls + 1,
    pr :: r.prompts, tp :: r.temps, a :: r.verifiedAttempts⟩

/-- The `for attempt in range(max_retries + 1)` loop of
`generate_with_auto_fix` (lines 253–345), as a recursion on the number of
remaining iterations, from loop variable `attempt` and mutable state
`last_error` (initially `""`).  Branches, in source order:
* lines 338–343: an exception containing `"429"` waits and continues,
  any other exception returns `(None, "API Error: ...")`;
* lines 296–303: a non-`"STOP"` finish reason returns `(None, msg)`;
* lines 315–318: no image payload returns `(None, "No Image Generated")`;
* lines 320–333: before the last attempt, `verify_image` either ends the
  loop with `(image, None)` or records the reason and continues;
* lines 334–336: on the last attempt the image is returned unverified as
  `(image, "Max Retries Reached")`;
* line 345: falling off the loop returns `(None, "Unknown Error")`. -/
def genLoopAux (cfg : Config) (worker : Nat → WorkerResult)
    (verifier : Nat → VerifierRaw) :
    Nat → Nat → JsonValue → RunResult
  | 0, _, _ => ⟨none, some "Unknown Error", 0, 0, [], [], []⟩
  | rem + 1, attempt, lastError =>
    let pr := promptAt cfg attempt lastError
    let tp := currentTemp cfg.temperature attempt
    match worker attempt with
    | .exc msg =>
      if strContains msg "429" then
        prependGen pr tp (genLoopAux cfg worker verifier rem (attempt + 1) lastError)
      else ⟨none, some ("API Error: " ++ msg), 1, 0, [pr], [tp], []⟩
    | .resp r =>
      match blockedReason r with
      | some m => ⟨none, some m, 1, 0, [pr], [tp], []⟩
      | none =>
        match extractImage r with
        | none => ⟨none, some "No Image Generated", 1, 0, [pr], [tp], []⟩
        | some img =>
          if attempt < cfg.maxRetries then
            match verify_image cfg.verifyMode (verifier attempt) with
            | (true, _) => ⟨some img, none, 1, 1, [pr], [tp], [attempt]⟩
            | (false, reason) =>
              prependVer attempt pr tp
                (genLoopAux cfg worker verifier rem (attempt + 1) reason)
          else ⟨some img, some "Max Retries Reached", 1, 0, [pr], [tp], []⟩

/-- `generate_with_auto_fix` (lines 240–345): run the loop from attempt 0
with `last_error = ""` and budget `max_retries + 1`. -/
def generate_with_auto_fix (cfg : Config) (worker : Nat → WorkerResult)
    (verifier : Nat → VerifierRaw) : RunResult :=
  genLoopAux cfg worker verifier (cfg.maxRetries + 1) 0 (.str "")

/-- Line 356 of `process_and_update`:
`max_retries = 2 if (use_autofix and verify_mode != "OFF") else 0`. -/
def effectiveMaxRetries (useAutofix : Bool) (verifyMode : String) : Nat :=
  if useAutofix = true ∧ verifyMode ≠ "OFF" then 2 else 0

/-! ### Derived notions used in the statements -/

/-- Whether `json.loads` produced a dictionary (the only shape on which
`data.get` does not raise). -/
def isJsonObject : JsonValue → Bool
  | .obj _ => true
  | _ => false

/-- Lines 296–318 combined: the terminal generation failures of one
attempt — a safety block, or a response with no image payload. -/
def terminalFailure (r : GenResponse) : Option String :=
  match blockedReason r with
  | some m => some m
  | none =>
    match extractImage r with
    | none => some "No Image Generated"
    | some _ => none

/-- The two source paths on which the loop continues past attempt `j`
instead of returning: an exception whose text contains `"429"`
(lines 339–342), or a produced image whose verification fails
(lines 329–333). -/
def continuesAt (cfg : Config) (worker : Nat → WorkerResult)
    (verifier : Nat → VerifierRaw) (j : Nat) : Prop :=
  (∃ msg, worker j = .exc msg ∧ strContains msg "429" = true) ∨
    (∃ r img rsn, worker j = .resp r ∧ blockedReason r = none ∧
      extractImage r = some img ∧ j < cfg.maxRetries ∧
      verify_image cfg.verifyMode (verifier j) = (false, rsn))

/-- Prefix a run with an already-performed trace segment. -/
def prependRun (ps : List String) (ts : List ℚ) (vas : List Nat)
    (r : RunResult) : RunResult :=
  ⟨r.image, r.err, ps.length + r.genCalls, vas.length + r.verifyCalls,
    ps ++ r.prompts, ts ++ r.temps, vas ++ r.verifiedAttempts⟩

/-! ### Concrete fixtures used to instantiate the theorems -/

/-- A worker oracle that always answers with finish reason `"STOP"` and one
image part. -/
def okWorker : Nat → WorkerResult :=
  fun _ => .resp ⟨["STOP"], [some 7], none⟩

/-- A worker oracle whose first candidate is a safety block. -/
def blockedWorker : Nat → WorkerResult :=
  fun _ => .resp ⟨["SAFETY"], [], none⟩

/-- A worker oracle that always raises a rate-limit exception. -/
def rateLimitedWorker : Nat → WorkerResult :=
  fun _ => .exc "429 RESOURCE_EXHAUSTED"

/-- A verifier oracle that always passes. -/
def passVerifier : Nat → VerifierRaw :=
  fun _ => .resp (some "\x7b\"status\": \"PASS\"\x7d")

/-- A verifier oracle that always fails with reason `vertical text`. -/
def failVerifier : Nat → VerifierRaw :=
  fun _ => .resp (some "\x7b\"status\": \"FAIL\", \"reason\": \"vertical text\"\x7d")

/-- A verifier oracle that always answers unparseable text. -/
def garbageVerifier : Nat → VerifierRaw :=
  fun _ => .resp (some "oops")

/-- A configuration with the observed defaults: temperature `0.4`, strict
inspection, two retries. -/
def baseCfg : Config := ⟨"Translate.", 2/5, "STRICT", 2⟩

/-- The same configuration with the slider at `0.55`. -/
def midTempCfg : Config := ⟨"Translate.", 11/20, "STRICT", 2⟩

/-- The same configuration with the basic inspector rubric. -/
def basicCfg : Config := ⟨"Translate.", 2/5, "BASIC", 2⟩

/-! ### One-step unfoldings of the loop -/

theorem genLoopAux_exc429 (cfg : Config) (w : Nat → WorkerResult)
    (v : Nat → VerifierRaw) (rem a : Nat) (le : JsonValue) (msg : String)
    (hw : w a = .exc msg) (h429 : strContains msg "429" = true) :
    genLoopAux cfg w v (rem + 1) a le =
      prependGen (promptAt cfg a le) (currentTemp cfg.temperature a)
        (genLoopAux cfg w v rem (a + 1) le) := by
  simp only [genLoopAux, hw, h429, if_true]

theorem genLoopAux_excOther (cfg : Config) (w : Nat → WorkerResult)
    (v : Nat → VerifierRaw) (rem a : Nat) (le : JsonValue) (msg : String)
    (hw : w a = .exc msg) (h429 : strContains msg "429" = false) :
    genLoopAux cfg w v (rem + 1) a le =
      ⟨none, some ("API Error: " ++ msg), 1, 0, [promptAt cfg a le],
        [currentTemp cfg.temperature a], []⟩ := by
  simp only [genLoopAux, hw, h429]
  rfl

theorem genLoopAux_blocked (cfg : Config) (w : Nat → WorkerResult)
    (v : Nat → VerifierRaw) (rem a : Nat) (le : JsonValue) (r : GenResponse)
    (m : String) (hw : w a = .resp r) (hb : blockedReason r = some m) :
    genLoopAux cfg w v (rem + 1) a le =
      ⟨none, some m, 1, 0, [promptAt cfg a le],
        [currentTemp cfg.temperature a], []⟩ := by
  simp only [genLoopAux, hw, hb]

theorem genLoopAux_noImage (cfg : Config) (w : Nat → WorkerResult)
    (v : Nat → VerifierRaw) (rem a : Nat) (le : JsonValue) (r : GenResponse)
    (hw : w a = .resp r) (hb : blockedReason r = none)
    (he : extractImage r = none) :
    genLoopAux cfg w v (rem + 1) a le =
      ⟨none, some "No Image Generated", 1, 0, [promptAt cfg a le],
        [currentTemp cfg.temperature a], []⟩ := by
  simp only [genLoopAux, hw, hb, he]

theorem genLoopAux_pass (cfg : Config) (w : Nat → WorkerResult)
    (v : Nat → VerifierRaw) (rem a : Nat) (le : JsonValue) (r : GenResponse)
    (img : Img) (rsn : JsonValue) (hw : w a = .resp r)
    (hb : blockedReason r = none) (he : extractImage r = some img)
    (ha : a < cfg.maxRetries)
    (hv : verify_image cfg.verifyMode (v a) = (true, rsn)) :
    genLoopAux cfg w v (rem + 1) a le =
      ⟨some img, none, 1, 1, [promptAt cfg a le],
        [currentTemp cfg.temperature a], [a]⟩ := by
  simp only [genLoopAux, hw, hb, he, if_pos ha, hv]

theorem genLoopAux_verifyFail (cfg : Config) (w : Nat → WorkerResult)
    (v : Nat → VerifierRaw) (rem a : Nat) (le : JsonValue) (r : GenResponse)
    (img : Img) (rsn : JsonValue) (hw : w a = .resp r)
    (hb : blockedReason r = none) (he : extractImage r = some img)
    (ha : a < cfg.maxRetries)
    (hv : verify_image cfg.verifyMode (v a) = (false, rsn)) :
    genLoopAux cfg w v (rem + 1) a le =
      prependVer a (promptAt cfg a le) (currentTemp cfg.temperature a)
        (genLoopAux cfg w v rem (a + 1) rsn) := by
  simp only [genLoopAux, hw, hb, he, if_pos ha, hv]

theorem genLoopAux_lastAttempt (cfg : Config) (w : Nat → WorkerResult)
    (v : Nat → VerifierRaw) (rem a : Nat) (le : JsonValue) (r : GenResponse)
    (img : Img) (hw : w a = .resp r) (hb : blockedReason r = none)
    (he : extractImage r = some img) (ha : ¬ a < cfg.maxRetries) :
    genLoopAux cfg w v (rem + 1) a le =
      ⟨some img, some "Max Retries Reached", 1, 0, [promptAt cfg a le],
        [currentTemp cfg.temperature a], []⟩ := by
  simp only [genLoopAux, hw, hb, he, if_neg ha]

/-! ### Structural invariants of the loop -/

@[simp] theorem prependGen_image (pr : String) (tp : ℚ) (r : RunResult) :
    (prependGen pr tp r).image = r.image := rfl

@[simp] theorem prependGen_err (pr : String) (tp : ℚ) (r : RunResult) :
    (prependGen pr tp r).err = r.err := rfl

@[simp] theorem prependGen_genCalls (pr : String) (tp : ℚ) (r : RunResult) :
    (prependGen pr tp r).genCalls = r.genCalls + 1 := rfl

@[simp] theorem prependGen_verifyCalls (pr : String) (tp : ℚ) (r : RunResult) :
    (prependGen pr tp r).verifyCalls = r.verifyCalls := rfl

@[simp] theorem prependGen_prompts (pr : String) (tp : ℚ) (r : RunResult) :
    (prependGen pr tp r).prompts = pr :: r.prompts := rfl

@[simp] theorem prependGen_temps (pr : String) (tp : ℚ) (r : RunResult) :
    (prependGen pr tp r).temps = tp :: r.temps := rfl

@[simp] theorem prependGen_verifiedAttempts (pr : String) (tp : ℚ) (r : RunResult) :
    (prependGen pr tp r).verifiedAttempts = r.verifiedAttempts := rfl

@[simp] theorem prependVer_image (a : Nat) (pr : String) (tp : ℚ) (r : RunResult) :
    (prependVer a pr tp r).image = r.image := rfl

@[simp] theorem prependVer_err (a : Nat) (pr : String) (tp : ℚ) (r : RunResult) :
    (prependVer a pr tp r).err = r.err := rfl

@[simp] theorem prependVer_genCalls (a : Nat) (pr : String) (tp : ℚ) (r : RunResult) :
    (prependVer a pr tp r).genCalls = r.genCalls + 1 := rfl

@[simp] theorem prependVer_verifyCalls (a : Nat) (pr : String) (tp : ℚ) (r : RunResult) :
    (prependVer a pr tp r).verifyCalls = r.verifyCalls + 1 := rfl

@[simp] theorem prependVer_prompts (a : Nat) (pr : String) (tp : ℚ) (r : RunResult) :
    (prependVer a pr tp r).prompts = pr :: r.prompts := rfl

@[simp] theorem prependVer_temps (a : Nat) (pr : String) (tp : ℚ) (r : RunResult) :
    (prependVer a pr tp r).temps = tp :: r.temps := rfl

@[simp] theorem prependVer_verifiedAttempts (a : Nat) (pr : String) (tp : ℚ)
    (r : RunResult) :
    (prependVer a pr tp r).verifiedAttempts = a :: r.verifiedAttempts := rfl

theorem genLoopAux_counts (cfg : Config) (w : Nat → WorkerResult)
    (v : Nat → VerifierRaw) :
    ∀ (rem a : Nat) (le : JsonValue),
      (genLoopAux cfg w v rem a le).prompts.length =
          (genLoopAux cfg w v rem a le).genCalls ∧
        (genLoopAux cfg w v rem a le).temps.length =
          (genLoopAux cfg w v rem a le).genCalls ∧
        (genLoopAux cfg w v rem a le).verifiedAttempts.length =
          (genLoopAux cfg w v rem a le).verifyCalls ∧
        (genLoopAux cfg w v rem a le).genCalls ≤ rem := by
  intro rem
  induction rem with
  | zero => intro a le; exact ⟨rfl, rfl, rfl, Nat.le_refl 0⟩
  | succ rem ih =>
    intro a le
    cases hw : w a with
    | exc msg =>
      cases h429 : strContains msg "429" with
      | true =>
        rw [genLoopAux_exc429 cfg w v rem a le msg hw h429]
        obtain ⟨h1, h2, h3, h4⟩ := ih (a + 1) le
        refine ⟨?_, ?_, ?_, ?_⟩ <;> simp [h1, h2, h3] <;> omega
      | false =>
        rw [genLoopAux_excOther cfg w v rem a le msg hw h429]
        exact ⟨rfl, rfl, rfl, Nat.succ_le_succ (Nat.zero_le rem)⟩
    | resp r =>
      cases hb : blockedReason r with
      | some m =>
        rw [genLoopAux_blocked cfg w v rem a le r m hw hb]
        exact ⟨rfl, rfl, rfl, Nat.succ_le_succ (Nat.zero_le rem)⟩
      | none =>
        cases he : extractImage r with
        | none =>
          rw [genLoopAux_noImage cfg w v rem a le r hw hb he]
          exact ⟨rfl, rfl, rfl, Nat.succ_le_succ (Nat.zero_le rem)⟩
        | some img =>
          by_cases ha : a < cfg.maxRetries
          · cases hv : verify_image cfg.verifyMode (v a) with
            | mk fst snd =>
              cases fst
              · rw [genLoopAux_verifyFail cfg w v rem a le r img snd hw hb he ha hv]
                obtain ⟨h1, h2, h3, h4⟩ := ih (a + 1) snd
                refine ⟨?_, ?_, ?_, ?_⟩ <;> simp [h1, h2, h3] <;> omega
              · rw [genLoopAux_pass cfg w v rem a le r img snd hw hb he ha hv]
                exact ⟨rfl, rfl, rfl, Nat.succ_le_succ (Nat.zero_le rem)⟩
          · rw [genLoopAux_lastAttempt cfg w v rem a le r img hw hb he ha]
            exact ⟨rfl, rfl, rfl, Nat.succ_le_succ (Nat.zero_le rem)⟩

theorem genLoopAux_verify_bounds (cfg : Config) (w : Nat → WorkerResult)
    (v : Nat → VerifierRaw) :
    ∀ (rem a : Nat) (le : JsonValue),
      (∀ j ∈ (genLoopAux cfg w v rem a le).verifiedAttempts,
          a ≤ j ∧ j < cfg.maxRetries) ∧
        (genLoopAux cfg w v rem a le).verifyCalls ≤ cfg.maxRetries - a := by
  intro rem
  induction rem with
  | zero => intro a le; exact ⟨(by intro j hj; simp [genLoopAux] at hj), Nat.zero_le _⟩
  | succ rem ih =>
    intro a le
    cases hw : w a with
    | exc msg =>
      cases h429 : strContains msg "429" with
      | true =>
        rw [genLoopAux_exc429 cfg w v rem a le msg hw h429]
        obtain ⟨h1, h2⟩ := ih (a + 1) le
        refine ⟨?_, ?_⟩
        · intro j hj
          simp only [prependGen_verifiedAttempts] at hj
          have := h1 j hj
          omega
        · simp only [prependGen_verifyCalls]
          omega
      | false =>
        rw [genLoopAux_excOther cfg w v rem a le msg hw h429]
        exact ⟨(by intro j hj; simp at hj), Nat.zero_le _⟩
    | resp r =>
      cases hb : blockedReason r with
      | some m =>
        rw [genLoopAux_blocked cfg w v rem a le r m hw hb]
        exact ⟨(by intro j hj; simp at hj), Nat.zero_le _⟩
      | none =>
        cases he : extractImage r with
        | none =>
          rw [genLoopAux_noImage cfg w v rem a le r hw hb he]
          exact ⟨(by intro j hj; simp at hj), Nat.zero_le _⟩
        | some img =>
          by_cases ha : a < cfg.maxRetries
          · cases hv : verify_image cfg.verifyMode (v a) with
            | mk fst snd =>
              cases fst
              · rw [genLoopAux_verifyFail cfg w v rem a le r img snd hw hb he ha hv]
                obtain ⟨h1, h2⟩ := ih (a + 1) snd
                refine ⟨?_, ?_⟩
                · intro j hj
                  simp only [prependVer_verifiedAttempts, List.mem_cons] at hj
                  rcases hj with rfl | hj
                  · exact ⟨Nat.le_refl _, ha⟩
                  · have := h1 j hj
                    omega
                · simp only [prependVer_verifyCalls]
                  omega
              · rw [genLoopAux_pass cfg w v rem a le r img snd hw hb he ha hv]
                refine ⟨?_, ?_⟩
                · intro j hj
                  have hj' : j = a := by simpa using hj
                  subst hj'
                  exact ⟨Nat.le_refl j, ha⟩
                · show 1 ≤ cfg.maxRetries - a
                  omega
          · rw [genLoopAux_lastAttempt cfg w v rem a le r img hw hb he ha]
            exact ⟨(by intro j hj; simp at hj), Nat.zero_le _⟩

theorem genLoopAux_err_of_none (cfg : Config) (w : Nat → WorkerResult)
    (v : Nat → VerifierRaw) :
    ∀ (rem a : Nat) (le : JsonValue),
      (genLoopAux cfg w v rem a le).image = none →
        ∃ m, (genLoopAux cfg w v rem a le).err = some m := by
  intro rem
  induction rem with
  | zero => intro a le _; exact ⟨"Unknown Error", rfl⟩
  | succ rem ih =>
    intro a le
    cases hw : w a with
    | exc msg =>
      cases h429 : strContains msg "429" with
      | true =>
        rw [genLoopAux_exc429 cfg w v rem a le msg hw h429]
        intro h
        simp only [prependGen_image] at h
        obtain ⟨m, hm⟩ := ih (a + 1) le h
        exact ⟨m, by simp [hm]⟩
      | false =>
        rw [genLoopAux_excOther cfg w v rem a le msg hw h429]
        exact fun _ => ⟨"API Error: " ++ msg, rfl⟩
    | resp r =>
      cases hb : blockedReason r with
      | some m =>
        rw [genLoopAux_blocked cfg w v rem a le r m hw hb]
        exact fun _ => ⟨m, rfl⟩
      | none =>
        cases he : extractImage r with
        | none =>
          rw [genLoopAux_noImage cfg w v rem a le r hw hb he]
          exact fun _ => ⟨"No Image Generated", rfl⟩
        | some img =>
          by_cases ha : a < cfg.maxRetries
          · cases hv : verify_image cfg.verifyMode (v a) with
            | mk fst snd =>
              cases fst
              · rw [genLoopAux_verifyFail cfg w v rem a le r img snd hw hb he ha hv]
                intro h
                simp only [prependVer_image] at h
                obtain ⟨m, hm⟩ := ih (a + 1) snd h
                exact ⟨m, by simp [hm]⟩
              · rw [genLoopAux_pass cfg w v rem a le r img snd hw hb he ha hv]
                intro h
                cases h
          · rw [genLoopAux_lastAttempt cfg w v rem a le r img hw hb he ha]
            intro h
            cases h

theorem genLoopAux_temps_get (cfg : Config) (w : Nat → WorkerResult)
    (v : Nat → VerifierRaw) :
    ∀ (rem a : Nat) (le : JsonValue) (i : Nat)
      (h : i < (genLoopAux cfg w v rem a le).temps.length),
      (genLoopAux cfg w v rem a le).temps[i] =
        currentTemp cfg.temperature (a + i) := by
  intro rem
  induction rem with
  | zero =>
    intro a le i h
    cases h
  | succ rem ih =>
    intro a le
    cases hw : w a with
    | exc msg =>
      cases h429 : strContains msg "429" with
      | true =>
        rw [genLoopAux_exc429 cfg w v rem a le msg hw h429]
        intro i h
        simp only [prependGen_temps] at h ⊢
        cases i with
        | zero => simp
        | succ i =>
          simp only [List.getElem_cons_succ]
          rw [ih (a + 1) le i (by simpa using h)]
          congr 1
          omega
      | false =>
        rw [genLoopAux_excOther cfg w v rem a le msg hw h429]
        intro i h
        simp only [List.length_singleton] at h
        interval_cases i
        simp
    | resp r =>
      cases hb : blockedReason r with
      | some m =>
        rw [genLoopAux_blocked cfg w v rem a le r m hw hb]
        intro i h
        simp only [List.length_singleton] at h
        interval_cases i
        simp
      | none =>
        cases he : extractImage r with
        | none =>
          rw [genLoopAux_noImage cfg w v rem a le r hw hb he]
          intro i h
          simp only [List.length_singleton] at h
          interval_cases i
          simp
        | some img =>
          by_cases ha : a < cfg.maxRetries
          · cases hv : verify_image cfg.verifyMode (v a) with
            | mk fst snd =>
              cases fst
              · rw [genLoopAux_verifyFail cfg w v rem a le r img snd hw hb he ha hv]
                intro i h
                simp only [prependVer_temps] at h ⊢
                cases i with
                | zero => simp
                | succ i =>
                  simp only [List.getElem_cons_succ]
                  rw [ih (a + 1) snd i (by simpa using h)]
                  congr 1
                  omega
              · rw [genLoopAux_pass cfg w v rem a le r img snd hw hb he ha hv]
                intro i h
                simp only [List.length_singleton] at h
                interval_cases i
                simp
          · rw [genLoopAux_lastAttempt cfg w v rem a le r img hw hb he ha]
            intro i h
            simp only [List.length_singleton] at h
            interval_cases i
            simp

/-- The first iteration of a run with positive budget records the prompt
built from the loop state. -/
theorem genLoopAux_head_prompt (cfg : Config) (w : Nat → WorkerResult)
    (v : Nat → VerifierRaw) (rem a : Nat) (le : JsonValue) :
    ∃ rest, (genLoopAux cfg w v (rem + 1) a le).prompts =
      promptAt cfg a le :: rest := by
  cases hw : w a with
  | exc msg =>
    cases h429 : strContains msg "429" with
    | true =>
      rw [genLoopAux_exc429 cfg w v rem a le msg hw h429]
      exact ⟨_, rfl⟩
    | false =>
      rw [genLoopAux_excOther cfg w v rem a le msg hw h429]
      exact ⟨[], rfl⟩
  | resp r =>
    cases hb : blockedReason r with
    | some m =>
      rw [genLoopAux_blocked cfg w v rem a le r m hw hb]
      exact ⟨[], rfl⟩
    | none =>
      cases he : extractImage r with
      | none =>
        rw [genLoopAux_noImage cfg w v rem a le r hw hb he]
        exact ⟨[], rfl⟩
      | some img =>
        by_cases ha : a < cfg.maxRetries
        · cases hv : verify_image cfg.verifyMode (v a) with
          | mk fst snd =>
            cases fst
            · rw [genLoopAux_verifyFail cfg w v rem a le r img snd hw hb he ha hv]
              exact ⟨_, rfl⟩
            · rw [genLoopAux_pass cfg w v rem a le r img snd hw hb he ha hv]
              exact ⟨[], rfl⟩
        · rw [genLoopAux_lastAttempt cfg w v rem a le r img hw hb he ha]
          exact ⟨[], rfl⟩

/-! ### Reaching a given attempt -/

@[simp] theorem prependRun_image (ps : List String) (ts : List ℚ)
    (vas : List Nat) (r : RunResult) :
    (prependRun ps ts vas r).image = r.image := rfl

@[simp] theorem prependRun_err (ps : List String) (ts : List ℚ)
    (vas : List Nat) (r : RunResult) :
    (prependRun ps ts vas r).err = r.err := rfl

@[simp] theorem prependRun_genCalls (ps : List String) (ts : List ℚ)
    (vas : List Nat) (r : RunResult) :
    (prependRun ps ts vas r).genCalls = ps.length + r.genCalls := rfl

@[simp] theorem prependRun_verifyCalls (ps : List String) (ts : List ℚ)
    (vas : List Nat) (r : RunResult) :
    (prependRun ps ts vas r).verifyCalls = vas.length + r.verifyCalls := rfl

@[simp] theorem prependRun_prompts (ps : List String) (ts : List ℚ)
    (vas : List Nat) (r : RunResult) :
    (prependRun ps ts vas r).prompts = ps ++ r.prompts := rfl

@[simp] theorem prependRun_temps (ps : List String) (ts : List ℚ)
    (vas : List Nat) (r : RunResult) :
    (prependRun ps ts vas r).temps = ts ++ r.temps := rfl

@[simp] theorem prependRun_verifiedAttempts (ps : List String) (ts : List ℚ)
    (vas : List Nat) (r : RunResult) :
    (prependRun ps ts vas r).verifiedAttempts = vas ++ r.verifiedAttempts := rfl

theorem prependRun_nil (r : RunResult) : prependRun [] [] [] r = r := by
  cases r
  simp [prependRun]

theorem prependRun_gen (ps : List String) (ts : List ℚ) (vas : List Nat)
    (pr : String) (tp : ℚ) (r : RunResult) :
    prependRun ps ts vas (prependGen pr tp r) =
      prependRun (ps ++ [pr]) (ts ++ [tp]) vas r := by
  cases r
  simp [prependRun, prependGen]
  omega

theorem prependRun_ver (ps : List String) (ts : List ℚ) (vas : List Nat)
    (a : Nat) (pr : String) (tp : ℚ) (r : RunResult) :
    prependRun ps ts vas (prependVer a pr tp r) =
      prependRun (ps ++ [pr]) (ts ++ [tp]) (vas ++ [a]) r := by
  cases r
  simp [prependRun, prependVer]
  omega

/-- If the loop continues on every attempt before `k`, the whole run is a
`k`-step trace prefix followed by the run starting at attempt `k`. -/
theorem genLoopAux_reach (cfg : Config) (w : Nat → WorkerResult)
    (v : Nat → VerifierRaw) :
    ∀ (k : Nat), k ≤ cfg.maxRetries →
      (∀ j, j < k → continuesAt cfg w v j) →
      ∃ (le : JsonValue) (ps : List String) (ts : List ℚ) (vas : List Nat),
        ps.length = k ∧ ts.length = k ∧ (∀ j ∈ vas, j < k) ∧
        generate_with_auto_fix cfg w v =
          prependRun ps ts vas
            (genLoopAux cfg w v (cfg.maxRetries + 1 - k) k le) := by
  intro k
  induction k with
  | zero =>
    intro _ _
    refine ⟨.str "", [], [], [], rfl, rfl, (by intro j hj; simp at hj), ?_⟩
    rw [prependRun_nil]
    rfl
  | succ k ih =>
    intro hk hcont
    obtain ⟨le, ps, ts, vas, hps, hts, hvas, hrun⟩ :=
      ih (Nat.le_of_succ_le hk) (fun j hj => hcont j (Nat.lt_succ_of_lt hj))
    have hrem : cfg.maxRetries + 1 - k = (cfg.maxRetries - k) + 1 := by omega
    have hrem' : cfg.maxRetries - k = cfg.maxRetries + 1 - (k + 1) := by omega
    rcases hcont k (Nat.lt_succ_self k) with
      ⟨msg, hw, h429⟩ | ⟨r, img, rsn, hw, hb, he, hlt, hv⟩
    · rw [hrem] at hrun
      rw [genLoopAux_exc429 cfg w v (cfg.maxRetries - k) k le msg hw h429,
        prependRun_gen, hrem'] at hrun
      refine ⟨le, ps ++ [promptAt cfg k le],
        ts ++ [currentTemp cfg.temperature k], vas, ?_, ?_, ?_, hrun⟩
      · simp [hps]
      · simp [hts]
      · intro j hj
        exact Nat.lt_succ_of_lt (hvas j hj)
    · rw [hrem] at hrun
      rw [genLoopAux_verifyFail cfg w v (cfg.maxRetries - k) k le r img rsn
          hw hb he hlt hv,
        prependRun_ver, hrem'] at hrun
      refine ⟨rsn, ps ++ [promptAt cfg k le],
        ts ++ [currentTemp cfg.temperature k], vas ++ [k], ?_, ?_, ?_, hrun⟩
      · simp [hps]
      · simp [hts]
      · intro j hj
        rcases List.mem_append.mp hj with hj | hj
        · exact Nat.lt_succ_of_lt (hvas j hj)
        · have : j = k := by simpa using hj
          omega

/-! ### The claims -/

/-- C1: for every work item and configuration, the worker model is invoked
at most `max_retries + 1` times, `verify_image` is invoked at most
`max_retries` times and never on attempt index `max_retries`; on that final
attempt a produced image is returned unverified. -/
theorem claim1_bounded_attempts (cfg : Config) (w : Nat → WorkerResult)
    (v : Nat → VerifierRaw) :
    (generate_with_auto_fix cfg w v).genCalls ≤ cfg.maxRetries + 1 ∧
    (generate_with_auto_fix cfg w v).verifyCalls ≤ cfg.maxRetries ∧
    (∀ j ∈ (generate_with_auto_fix cfg w v).verifiedAttempts,
      j < cfg.maxRetries) ∧
    (∀ (rem : Nat) (le : JsonValue) (r : GenResponse) (img : Img),
      w cfg.maxRetries = .resp r → blockedReason r = none →
      extractImage r = some img →
      genLoopAux cfg w v (rem + 1) cfg.maxRetries le =
        ⟨some img, some "Max Retries Reached", 1, 0,
          [promptAt cfg cfg.maxRetries le],
          [currentTemp cfg.temperature cfg.maxRetries], []⟩) := by
  refine ⟨?_, ?_, ?_, ?_⟩
  · exact (genLoopAux_counts cfg w v (cfg.maxRetries + 1) 0 (.str "")).2.2.2
  · have h := (genLoopAux_verify_bounds cfg w v (cfg.maxRetries + 1) 0 (.str "")).2
    simpa using h
  · intro j hj
    exact ((genLoopAux_verify_bounds cfg w v (cfg.maxRetries + 1) 0 (.str "")).1 j hj).2
  · intro rem le r img hw hb he
    exact genLoopAux_lastAttempt cfg w v rem cfg.maxRetries le r img hw hb he
      (Nat.lt_irrefl _)

theorem claim1_bounded_attempts_witness :
    (generate_with_auto_fix baseCfg okWorker failVerifier).genCalls ≤
        baseCfg.maxRetries + 1 ∧
      genLoopAux baseCfg okWorker failVerifier 1 baseCfg.maxRetries (.str "") =
        ⟨some 7, some "Max Retries Reached", 1, 0,
          [promptAt baseCfg baseCfg.maxRetries (.str "")],
          [currentTemp baseCfg.temperature baseCfg.maxRetries], []⟩ :=
  ⟨(claim1_bounded_attempts baseCfg okWorker failVerifier).1,
    (claim1_bounded_attempts baseCfg okWorker failVerifier).2.2.2 0 (.str "")
      ⟨["STOP"], [some 7], none⟩ 7 rfl rfl rfl⟩

/-- C2: if verification passes on attempt `k < max_retries`, the run
returns the attempt-`k` image immediately with a success outcome (error
`None`), and the worker model is not invoked again (exactly `k + 1`
iterations in total). -/
theorem claim2_early_stop (cfg : Config) (w : Nat → WorkerResult)
    (v : Nat → VerifierRaw) (k : Nat) (r : GenResponse) (img : Img)
    (rsn : JsonValue) (hk : k < cfg.maxRetries)
    (hcont : ∀ j, j < k → continuesAt cfg w v j)
    (hw : w k = .resp r) (hb : blockedReason r = none)
    (he : extractImage r = some img)
    (hv : verify_image cfg.verifyMode (v k) = (true, rsn)) :
    (generate_with_auto_fix cfg w v).image = some img ∧
    (generate_with_auto_fix cfg w v).err = none ∧
    (generate_with_auto_fix cfg w v).genCalls = k + 1 := by
  obtain ⟨le, ps, ts, vas, hps, hts, hvas, hrun⟩ :=
    genLoopAux_reach cfg w v k (Nat.le_of_lt hk) hcont
  have hrem : cfg.maxRetries + 1 - k = (cfg.maxRetries - k) + 1 := by omega
  rw [hrem, genLoopAux_pass cfg w v (cfg.maxRetries - k) k le r img rsn
    hw hb he hk hv] at hrun
  rw [hrun]
  refine ⟨rfl, rfl, ?_⟩
  simp [hps]

theorem claim2_early_stop_witness :
    (generate_with_auto_fix baseCfg okWorker passVerifier).image = some 7 ∧
    (generate_with_auto_fix baseCfg okWorker passVerifier).err = none ∧
    (generate_with_auto_fix baseCfg okWorker passVerifier).genCalls = 0 + 1 :=
  claim2_early_stop baseCfg okWorker passVerifier 0 ⟨["STOP"], [some 7], none⟩
    7 (.str "PASS") (by decide) (fun j hj => absurd hj (Nat.not_lt_zero j))
    rfl rfl rfl rfl

/-- A verifier response whose text does not decode to a JSON dictionary
makes `verify_image` report a pass, whatever the mode. -/
theorem verify_image_fail_open (mode t : String)
    (h : jsonLoads (cleanResponse t) = none ∨
      ∃ val, jsonLoads (cleanResponse t) = some val ∧ isJsonObject val = false) :
    (verify_image mode (.resp (some t))).1 = true := by
  unfold verify_image
  by_cases hm : mode = "OFF"
  · simp [hm]
  · simp only [if_neg hm]
    by_cases ht : t = ""
    · simp [ht]
    · simp only [if_neg ht]
      rcases h with h | ⟨val, hval, hobj⟩
      · simp [h]
      · rw [hval]
        cases val <;> simp_all [isJsonObject]

/-- C3: a verifier response that is missing, empty, or whose text fails to
decode to the expected structured JSON shape yields a pass — a typed value,
not an exception — and in the retry loop such a response ends the work item
successfully at once rather than triggering another attempt. -/
theorem claim3_fail_open_verifier (mode t : String) :
    ((jsonLoads (cleanResponse t) = none ∨
        ∃ val, jsonLoads (cleanResponse t) = some val ∧
          isJsonObject val = false) →
      (verify_image mode (.resp (some t))).1 = true) ∧
    (verify_image mode (.resp none)).1 = true ∧
    (verify_image mode (.resp (some ""))).1 = true ∧
    (∀ (cfg : Config) (w : Nat → WorkerResult) (v : Nat → VerifierRaw)
      (rem a : Nat) (le : JsonValue) (r : GenResponse) (img : Img),
      jsonLoads (cleanResponse t) = none →
      v a = .resp (some t) → w a = .resp r → blockedReason r = none →
      extractImage r = some img → a < cfg.maxRetries →
      genLoopAux cfg w v (rem + 1) a le =
        ⟨some img, none, 1, 1, [promptAt cfg a le],
          [currentTemp cfg.temperature a], [a]⟩) := by
  refine ⟨verify_image_fail_open mode t, ?_, ?_, ?_⟩
  · unfold verify_image
    by_cases hm : mode = "OFF" <;> simp [hm]
  · unfold verify_image
    by_cases hm : mode = "OFF" <;> simp [hm]
  · intro cfg w v rem a le r img hparse hva hw hb he ha
    have hfst : (verify_image cfg.verifyMode (v a)).1 = true := by
      rw [hva]
      exact verify_image_fail_open cfg.verifyMode t (Or.inl hparse)
    have hv : verify_image cfg.verifyMode (v a) =
        (true, (verify_image cfg.verifyMode (v a)).2) := by
      rw [← hfst]
    exact genLoopAux_pass cfg w v rem a le r img _ hw hb he ha hv

theorem claim3_fail_open_verifier_witness :
    (verify_image "STRICT" (.resp (some "oops"))).1 = true ∧
    genLoopAux baseCfg okWorker garbageVerifier 3 0 (.str "") =
      ⟨some 7, none, 1, 1, [promptAt baseCfg 0 (.str "")],
        [currentTemp baseCfg.temperature 0], [0]⟩ :=
  ⟨(claim3_fail_open_verifier "STRICT" "oops").1 (Or.inl rfl),
    (claim3_fail_open_verifier "STRICT" "oops").2.2.2 baseCfg okWorker
      garbageVerifier 2 0 (.str "") ⟨["STOP"], [some 7], none⟩ 7 rfl rfl rfl
      rfl rfl (by decide)⟩

/-- C4: a terminal generation failure (safety block or a response with no
image payload) on attempt `k < max_retries` makes the run return a failed
outcome — no image, the failure reason as the error — immediately: the
worker model is not invoked again and attempt `k` is never verified. -/
theorem claim4_terminal_failure (cfg : Config) (w : Nat → WorkerResult)
    (v : Nat → VerifierRaw) (k : Nat) (r : GenResponse) (m : String)
    (hk : k < cfg.maxRetries)
    (hcont : ∀ j, j < k → continuesAt cfg w v j)
    (hw : w k = .resp r) (hterm : terminalFailure r = some m) :
    (generate_with_auto_fix cfg w v).image = none ∧
    (generate_with_auto_fix cfg w v).err = some m ∧
    (generate_with_auto_fix cfg w v).genCalls = k + 1 ∧
    (∀ j ∈ (generate_with_auto_fix cfg w v).verifiedAttempts, j < k) := by
  obtain ⟨le, ps, ts, vas, hps, hts, hvas, hrun⟩ :=
    genLoopAux_reach cfg w v k (Nat.le_of_lt hk) hcont
  have hrem : cfg.maxRetries + 1 - k = (cfg.maxRetries - k) + 1 := by omega
  rw [hrem] at hrun
  unfold terminalFailure at hterm
  cases hb : blockedReason r with
  | some m0 =>
    rw [hb] at hterm
    injection hterm with hm
    subst hm
    rw [genLoopAux_blocked cfg w v (cfg.maxRetries - k) k le r m0 hw hb] at hrun
    rw [hrun]
    refine ⟨rfl, rfl, ?_, ?_⟩
    · simp [hps]
    · intro j hj
      simp only [prependRun_verifiedAttempts, List.append_nil] at hj
      exact hvas j hj
  | none =>
    rw [hb] at hterm
    cases he : extractImage r with
    | some img =>
      rw [he] at hterm
      cases hterm
    | none =>
      rw [he] at hterm
      injection hterm with hm
      subst hm
      rw [genLoopAux_noImage cfg w v (cfg.maxRetries - k) k le r hw hb he] at hrun
      rw [hrun]
      refine ⟨rfl, rfl, ?_, ?_⟩
      · simp [hps]
      · intro j hj
        simp only [prependRun_verifiedAttempts, List.append_nil] at hj
        exact hvas j hj

theorem claim4_terminal_failure_witness :
    (generate_with_auto_fix baseCfg blockedWorker failVerifier).image = none ∧
    (generate_with_auto_fix baseCfg blockedWorker failVerifier).err =
      some "⚠️ Safety Filter Blocked: SAFETY" ∧
    (generate_with_auto_fix baseCfg blockedWorker failVerifier).genCalls =
      0 + 1 ∧
    (∀ j ∈ (generate_with_auto_fix baseCfg blockedWorker
        failVerifier).verifiedAttempts, j < 0) :=
  claim4_terminal_failure baseCfg blockedWorker failVerifier 0
    ⟨["SAFETY"], [], none⟩ "⚠️ Safety Filter Blocked: SAFETY" (by decide)
    (fun j hj => absurd hj (Nat.not_lt_zero j)) rfl rfl

/-- The retry temperature never decreases along the attempt index. -/
theorem currentTemp_mono (t : ℚ) (i j : Nat) (hij : i ≤ j) :
    currentTemp t i ≤ currentTemp t j := by
  unfold currentTemp
  rcases Nat.eq_zero_or_pos i with rfl | hi
  · rcases Nat.eq_zero_or_pos j with rfl | hj
    · exact le_refl _
    · by_cases hc : t < 1/2
      · rw [if_neg (by simp), if_pos ⟨hj, hc⟩]
        linarith
      · rw [if_neg (by simp), if_neg (by tauto)]
  · have hj : 0 < j := Nat.lt_of_lt_of_le hi hij
    by_cases hc : t < 1/2
    · rw [if_pos ⟨hi, hc⟩, if_pos ⟨hj, hc⟩]
    · rw [if_neg (by tauto), if_neg (by tauto)]

/-- C5 counterexample: the retry temperature is not
`max(configured_temperature, escape_threshold)`.  With the slider at `0.55`
(at least `0.5`, so no escalation) attempt 1 runs at `0.55`, while
`max(0.55, 0.65)` is `0.65`; and with the slider at `0.4` attempt 1 runs at
`0.65`, while `max(0.4, 0.5)` is `0.5`.  So the claim fails whether the
"escape threshold" is read as the escape value `0.65` or as the trigger
level `0.5`. -/
theorem claim5_counterexample :
    ((generate_with_auto_fix midTempCfg okWorker failVerifier).temps.get? 1 =
        some (currentTemp (11/20) 1) ∧
      currentTemp (11/20) 1 = 11/20 ∧
      ¬ ((11 : ℚ)/20 = max (11/20) (13/20))) ∧
    ((generate_with_auto_fix baseCfg okWorker failVerifier).temps.get? 1 =
        some (currentTemp (2/5) 1) ∧
      currentTemp (2/5) 1 = 13/20 ∧
      ¬ ((13 : ℚ)/20 = max (2/5) (1/2))) := by
  refine ⟨⟨rfl, ?_, ?_⟩, ⟨rfl, ?_, ?_⟩⟩
  · unfold currentTemp
    rw [if_neg]
    rintro ⟨-, hc⟩
    norm_num at hc
  · have hmax : max ((11 : ℚ)/20) (13/20) = 13/20 := max_eq_right (by norm_num)
    rw [hmax]
    norm_num
  · unfold currentTemp
    rw [if_pos ⟨Nat.zero_lt_one, by norm_num⟩]
  · have hmax : max ((2 : ℚ)/5) (1/2) = 1/2 := max_eq_right (by norm_num)
    rw [hmax]
    norm_num

/-- C5 amended: for every attempt index `n > 0` the temperature is `0.65`
when the configured temperature is below `0.5` and is the configured
temperature unchanged otherwise (in particular a configured temperature in
`[0.5, 0.65)` is used as-is, not raised to a maximum); the per-attempt
temperature sequence is nondecreasing, so once escalated it never drops
back for that item. -/
theorem claim5_amended_escalation (cfg : Config) (w : Nat → WorkerResult)
    (v : Nat → VerifierRaw) :
    (∀ (i : Nat) (h : i < (generate_with_auto_fix cfg w v).temps.length),
      0 < i → (generate_with_auto_fix cfg w v).temps[i] =
        if cfg.temperature < 1/2 then 13/20 else cfg.temperature) ∧
    (∀ (i j : Nat) (hi : i < (generate_with_auto_fix cfg w v).temps.length)
      (hj : j < (generate_with_auto_fix cfg w v).temps.length), i ≤ j →
      (generate_with_auto_fix cfg w v).temps[i] ≤
        (generate_with_auto_fix cfg w v).temps[j]) := by
  unfold generate_with_auto_fix
  constructor
  · intro i h hpos
    rw [genLoopAux_temps_get cfg w v (cfg.maxRetries + 1) 0 (.str "") i h]
    unfold currentTemp
    simp only [Nat.zero_add]
    by_cases hc : cfg.temperature < 1/2
    · rw [if_pos ⟨hpos, hc⟩, if_pos hc]
    · rw [if_neg (by tauto), if_neg hc]
  · intro i j hi hj hij
    rw [genLoopAux_temps_get cfg w v (cfg.maxRetries + 1) 0 (.str "") i hi,
      genLoopAux_temps_get cfg w v (cfg.maxRetries + 1) 0 (.str "") j hj]
    exact currentTemp_mono cfg.temperature (0 + i) (0 + j) (by omega)

theorem claim5_amended_escalation_witness :
    (generate_with_auto_fix baseCfg okWorker failVerifier).temps.get
        ⟨1, by decide⟩ =
      (if baseCfg.temperature < 1/2 then 13/20 else baseCfg.temperature) ∧
    (generate_with_auto_fix baseCfg okWorker failVerifier).temps.get
        ⟨0, by decide⟩ ≤
      (generate_with_auto_fix baseCfg okWorker failVerifier).temps.get
        ⟨1, by decide⟩ :=
  ⟨(claim5_amended_escalation baseCfg okWorker failVerifier).1 1 (by decide)
      Nat.zero_lt_one,
    (claim5_amended_escalation baseCfg okWorker failVerifier).2 0 1 (by decide)
      (by decide) (Nat.zero_le 1)⟩

/-- C6: when verification fails on attempt `k` with a string reason, the
prompt text built for attempt `k + 1` contains that reason verbatim. -/
theorem claim6_feedback_injection (cfg : Config) (w : Nat → WorkerResult)
    (v : Nat → VerifierRaw) (k : Nat) (r : GenResponse) (img : Img)
    (s : String) (hk : k < cfg.maxRetries)
    (hcont : ∀ j, j < k → continuesAt cfg w v j)
    (hw : w k = .resp r) (hb : blockedReason r = none)
    (he : extractImage r = some img)
    (hv : verify_image cfg.verifyMode (v k) = (false, .str s)) :
    ∃ p, (generate_with_auto_fix cfg w v).prompts.get? (k + 1) = some p ∧
      ∃ pre post, p = pre ++ s ++ post := by
  obtain ⟨le, ps, ts, vas, hps, hts, hvas, hrun⟩ :=
    genLoopAux_reach cfg w v k (Nat.le_of_lt hk) hcont
  have hrem : cfg.maxRetries + 1 - k = (cfg.maxRetries - k) + 1 := by omega
  rw [hrem, genLoopAux_verifyFail cfg w v (cfg.maxRetries - k) k le r img
    (.str s) hw hb he hk hv] at hrun
  have hpos : cfg.maxRetries - k = (cfg.maxRetries - k - 1) + 1 := by omega
  rw [hpos] at hrun
  obtain ⟨rest, hhead⟩ := genLoopAux_head_prompt cfg w v
    (cfg.maxRetries - k - 1) (k + 1) (.str s)
  refine ⟨promptAt cfg (k + 1) (.str s), ?_, ?_⟩
  · rw [hrun]
    simp only [prependRun_prompts, prependVer_prompts, hhead]
    rw [List.get?_append_right (by omega)]
    simp [hps]
  · unfold promptAt retryInstruction
    by_cases hs : s = ""
    · subst hs
      rw [if_neg]
      · exact ⟨cfg.prompt ++ cssInstruction, "", by simp⟩
      · rintro ⟨-, htr⟩
        simp [pyTruthy] at htr
    · rw [if_pos ⟨Nat.succ_pos k, by simp [pyTruthy, hs]⟩]
      refine ⟨cfg.prompt ++ cssInstruction ++
        "\n🚨 **PREVIOUS REJECTION REASON: ",
        "** 🚨\n" ++ "You failed the Quality Assurance check.\n" ++
          "If the error was \x27Vertical Text\x27, force Horizontal text output.\n" ++
          "If the error was \x27Distortion\x27, preserve the original art strictly.\n",
        ?_⟩
      simp [pyStr, String.append_assoc]

theorem claim6_feedback_injection_witness :
    ∃ p, (generate_with_auto_fix baseCfg okWorker failVerifier).prompts.get?
        (0 + 1) = some p ∧
      ∃ pre post, p = pre ++ "vertical text" ++ post :=
  claim6_feedback_injection baseCfg okWorker failVerifier 0
    ⟨["STOP"], [some 7], none⟩ 7 "vertical text" (by decide)
    (fun j hj => absurd hj (Nat.not_lt_zero j)) rfl rfl rfl rfl

/-- C7: with verification disabled (inspector mode `"OFF"`, or auto-retry
toggled off), `process_and_update` passes `max_retries = 0`, so the
pipeline makes exactly one worker call, never invokes `verify_image`, and
returns either the produced image unverified (`"Max Retries Reached"`) or
a failure with no image, whatever the image content. -/
theorem claim7_verification_disabled (prompt : String) (temp : ℚ)
    (mode : String) (useAutofix : Bool) (w : Nat → WorkerResult)
    (v : Nat → VerifierRaw) (h : useAutofix = false ∨ mode = "OFF") :
    (generate_with_auto_fix
        ⟨prompt, temp, mode, effectiveMaxRetries useAutofix mode⟩ w v).genCalls
        = 1 ∧
    (generate_with_auto_fix
        ⟨prompt, temp, mode, effectiveMaxRetries useAutofix mode⟩ w
        v).verifyCalls = 0 ∧
    ((∃ i, (generate_with_auto_fix
          ⟨prompt, temp, mode, effectiveMaxRetries useAutofix mode⟩ w
          v).image = some i ∧
        (generate_with_auto_fix
          ⟨prompt, temp, mode, effectiveMaxRetries useAutofix mode⟩ w
          v).err = some "Max Retries Reached") ∨
      ((generate_with_auto_fix
          ⟨prompt, temp, mode, effectiveMaxRetries useAutofix mode⟩ w
          v).image = none ∧
        ∃ m, (generate_with_auto_fix
          ⟨prompt, temp, mode, effectiveMaxRetries useAutofix mode⟩ w
          v).err = some m)) := by
  have hmr : effectiveMaxRetries useAutofix mode = 0 := by
    unfold effectiveMaxRetries
    rcases h with rfl | rfl
    · simp
    · simp
  rw [hmr]
  unfold generate_with_auto_fix
  cases hw : w 0 with
  | exc msg =>
    cases h429 : strContains msg "429" with
    | true =>
      rw [genLoopAux_exc429 ⟨prompt, temp, mode, 0⟩ w v 0 0 (.str "") msg hw
        h429]
      exact ⟨rfl, rfl, Or.inr ⟨rfl, "Unknown Error", rfl⟩⟩
    | false =>
      rw [genLoopAux_excOther ⟨prompt, temp, mode, 0⟩ w v 0 0 (.str "") msg hw
        h429]
      exact ⟨rfl, rfl, Or.inr ⟨rfl, "API Error: " ++ msg, rfl⟩⟩
  | resp r =>
    cases hb : blockedReason r with
    | some m =>
      rw [genLoopAux_blocked ⟨prompt, temp, mode, 0⟩ w v 0 0 (.str "") r m hw
        hb]
      exact ⟨rfl, rfl, Or.inr ⟨rfl, m, rfl⟩⟩
    | none =>
      cases he : extractImage r with
      | none =>
        rw [genLoopAux_noImage ⟨prompt, temp, mode, 0⟩ w v 0 0 (.str "") r hw
          hb he]
        exact ⟨rfl, rfl, Or.inr ⟨rfl, "No Image Generated", rfl⟩⟩
      | some img =>
        rw [genLoopAux_lastAttempt ⟨prompt, temp, mode, 0⟩ w v 0 0 (.str "") r
          img hw hb he (Nat.lt_irrefl 0)]
        exact ⟨rfl, rfl, Or.inl ⟨img, rfl, rfl⟩⟩

theorem claim7_verification_disabled_witness :
    (generate_with_auto_fix
        ⟨"Translate.", 2/5, "STRICT", effectiveMaxRetries false "STRICT"⟩
        okWorker failVerifier).genCalls = 1 ∧
    (generate_with_auto_fix
        ⟨"Translate.", 2/5, "STRICT", effectiveMaxRetries false "STRICT"⟩
        okWorker failVerifier).verifyCalls = 0 :=
  ⟨(claim7_verification_disabled "Translate." (2/5) "STRICT" false okWorker
      failVerifier (Or.inl rfl)).1,
    (claim7_verification_disabled "Translate." (2/5) "STRICT" false okWorker
      failVerifier (Or.inl rfl)).2.1⟩

/-- C8: every expected failure mode is captured as a typed outcome value
rather than an exception: a run with no image always carries an error
string; a verifier-side exception and an unparseable verifier response
both come back as pass verdicts with a reason string; a safety block or an
empty generation result comes back as a typed `(None, reason)` return. -/
theorem claim8_typed_outcomes (cfg : Config) (w : Nat → WorkerResult)
    (v : Nat → VerifierRaw) (mode msg t : String) :
    ((generate_with_auto_fix cfg w v).image = none →
      ∃ m, (generate_with_auto_fix cfg w v).err = some m) ∧
    (mode ≠ "OFF" →
      verify_image mode (.exc msg) =
        (true, .str ("Inspector Error: " ++ msg ++ " (Pass)"))) ∧
    (mode ≠ "OFF" → ¬ t = "" → jsonLoads (cleanResponse t) = none →
      verify_image mode (.resp (some t)) =
        (true, .str "JSON Error (Pass)")) ∧
    (∀ (rem a : Nat) (le : JsonValue) (r : GenResponse) (m : String),
      w a = .resp r → terminalFailure r = some m →
      genLoopAux cfg w v (rem + 1) a le =
        ⟨none, some m, 1, 0, [promptAt cfg a le],
          [currentTemp cfg.temperature a], []⟩) := by
  refine ⟨?_, ?_, ?_, ?_⟩
  · exact genLoopAux_err_of_none cfg w v (cfg.maxRetries + 1) 0 (.str "")
  · intro hm
    unfold verify_image
    rw [if_neg hm]
  · intro hm ht hparse
    unfold verify_image
    rw [if_neg hm]
    simp only [if_neg ht, hparse]
  · intro rem a le r m hw hterm
    unfold terminalFailure at hterm
    cases hb : blockedReason r with
    | some m0 =>
      rw [hb] at hterm
      injection hterm with hm
      subst hm
      exact genLoopAux_blocked cfg w v rem a le r m0 hw hb
    | none =>
      rw [hb] at hterm
      cases he : extractImage r with
      | some img =>
        rw [he] at hterm
        cases hterm
      | none =>
        rw [he] at hterm
        injection hterm with hm
        subst hm
        exact genLoopAux_noImage cfg w v rem a le r hw hb he

theorem claim8_typed_outcomes_witness :
    (∃ m, (generate_with_auto_fix baseCfg rateLimitedWorker
      passVerifier).err = some m) ∧
    verify_image "BASIC" (.exc "boom") =
      (true, .str ("Inspector Error: " ++ "boom" ++ " (Pass)")) ∧
    verify_image "BASIC" (.resp (some "oops")) =
      (true, .str "JSON Error (Pass)") ∧
    genLoopAux baseCfg blockedWorker passVerifier (2 + 1) 0 (.str "") =
      ⟨none, some "⚠️ Safety Filter Blocked: SAFETY", 1, 0,
        [promptAt baseCfg 0 (.str "")], [currentTemp baseCfg.temperature 0],
        []⟩ :=
  ⟨(claim8_typed_outcomes baseCfg rateLimitedWorker passVerifier "BASIC"
      "boom" "oops").1 rfl,
    (claim8_typed_outcomes baseCfg rateLimitedWorker passVerifier "BASIC"
      "boom" "oops").2.1 (by decide),
    (claim8_typed_outcomes baseCfg rateLimitedWorker passVerifier "BASIC"
      "boom" "oops").2.2.1 (by decide) (by decide) rfl,
    (claim8_typed_outcomes baseCfg blockedWorker passVerifier "BASIC"
      "boom" "oops").2.2.2 2 0 (.str "") ⟨["SAFETY"], [], none⟩
      "⚠️ Safety Filter Blocked: SAFETY" rfl rfl⟩

/-- Every attempt of a run can fail with a rate-limit exception; the loop
then just moves on to the next attempt. -/
theorem genLoopAux_all429 (cfg : Config) (w : Nat → WorkerResult)
    (v : Nat → VerifierRaw) :
    ∀ (rem a : Nat) (le : JsonValue),
      (∀ j, a ≤ j → j < a + rem →
        ∃ msg, w j = .exc msg ∧ strContains msg "429" = true) →
      (genLoopAux cfg w v rem a le).image = none ∧
      (genLoopAux cfg w v rem a le).err = some "Unknown Error" ∧
      (genLoopAux cfg w v rem a le).genCalls = rem ∧
      (genLoopAux cfg w v rem a le).verifyCalls = 0 := by
  intro rem
  induction rem with
  | zero => intro a le _; exact ⟨rfl, rfl, rfl, rfl⟩
  | succ rem ih =>
    intro a le h
    obtain ⟨msg, hw, h429⟩ := h a (Nat.le_refl a) (by omega)
    rw [genLoopAux_exc429 cfg w v rem a le msg hw h429]
    obtain ⟨h1, h2, h3, h4⟩ :=
      ih (a + 1) le (fun j hj1 hj2 => h j (by omega) (by omega))
    exact ⟨by simp [h1], by simp [h2], by simp [h3], by simp [h4]⟩

/-- C9: an exception containing `"429"` does not end the run — the loop
continues with the next attempt, so rate-limit errors consume the same
attempt budget as failed verifications; and when all `max_retries + 1`
attempts end this way the run returns no image with the error string
`"Unknown Error"`. -/
theorem claim9_rate_limit_retry (cfg : Config) (w : Nat → WorkerResult)
    (v : Nat → VerifierRaw) :
    (∀ (rem a : Nat) (le : JsonValue) (msg : String),
      w a = .exc msg → strContains msg "429" = true →
      genLoopAux cfg w v (rem + 1) a le =
        prependGen (promptAt cfg a le) (currentTemp cfg.temperature a)
          (genLoopAux cfg w v rem (a + 1) le)) ∧
    ((∀ j, j ≤ cfg.maxRetries →
        ∃ msg, w j = .exc msg ∧ strContains msg "429" = true) →
      (generate_with_auto_fix cfg w v).image = none ∧
      (generate_with_auto_fix cfg w v).err = some "Unknown Error" ∧
      (generate_with_auto_fix cfg w v).genCalls = cfg.maxRetries + 1 ∧
      (generate_with_auto_fix cfg w v).verifyCalls = 0) := by
  constructor
  · intro rem a le msg hw h429
    exact genLoopAux_exc429 cfg w v rem a le msg hw h429
  · intro h
    exact genLoopAux_all429 cfg w v (cfg.maxRetries + 1) 0 (.str "")
      (fun j _ hj2 => h j (by omega))

theorem claim9_rate_limit_retry_witness :
    genLoopAux baseCfg rateLimitedWorker passVerifier (2 + 1) 0 (.str "") =
      prependGen (promptAt baseCfg 0 (.str ""))
        (currentTemp baseCfg.temperature 0)
        (genLoopAux baseCfg rateLimitedWorker passVerifier 2 1 (.str "")) ∧
    (generate_with_auto_fix baseCfg rateLimitedWorker passVerifier).err =
      some "Unknown Error" ∧
    (generate_with_auto_fix baseCfg rateLimitedWorker
      passVerifier).genCalls = baseCfg.maxRetries + 1 :=
  ⟨(claim9_rate_limit_retry baseCfg rateLimitedWorker passVerifier).1 2 0
      (.str "") "429 RESOURCE_EXHAUSTED" rfl rfl,
    ((claim9_rate_limit_retry baseCfg rateLimitedWorker passVerifier).2
      (fun j _ => ⟨"429 RESOURCE_EXHAUSTED", rfl, rfl⟩)).2.1,
    ((claim9_rate_limit_retry baseCfg rateLimitedWorker passVerifier).2
      (fun j _ => ⟨"429 RESOURCE_EXHAUSTED", rfl, rfl⟩)).2.2.1⟩

/-- C10 counterexample: `"null"` is valid JSON with no `"status"` field,
yet `verify_image` answers Pass, not Fail — `json.loads` yields `None`,
`data.get` raises `AttributeError`, and the generic handler fails open. -/
theorem claim10_counterexample :
    jsonLoads (cleanResponse "null") = some JsonValue.null ∧
    isJsonObject JsonValue.null = false ∧
    verify_image "BASIC" (.resp (some "null")) =
      (true, .str
        "Inspector Error: \x27NoneType\x27 object has no attribute \x27get\x27 (Pass)") :=
  ⟨rfl, rfl, rfl⟩

/-- C10 amended: when the verifier's response parses as a JSON dictionary
whose `"status"` field differs from the exact string `"PASS"` (or is
missing), `verify_image` returns Fail with the `"reason"` field (default
`"Unknown Rejection"`), and in the retry loop that verdict drives another
attempt; valid JSON that is not a dictionary instead fails open to Pass. -/
theorem claim10_amended_status_fail (mode t : String)
    (fields : List (String × JsonValue)) (hm : mode ≠ "OFF")
    (hp : jsonLoads (cleanResponse t) = some (.obj fields))
    (hs : statusIsPass (objGet fields "status") = false) :
    verify_image mode (.resp (some t)) =
      (false, (objGet fields "reason").getD (.str "Unknown Rejection")) ∧
    (∀ (cfg : Config) (w : Nat → WorkerResult) (v : Nat → VerifierRaw)
      (rem a : Nat) (le : JsonValue) (r : GenResponse) (img : Img),
      cfg.verifyMode = mode → v a = .resp (some t) →
      w a = .resp r → blockedReason r = none → extractImage r = some img →
      a < cfg.maxRetries →
      genLoopAux cfg w v (rem + 1) a le =
        prependVer a (promptAt cfg a le) (currentTemp cfg.temperature a)
          (genLoopAux cfg w v rem (a + 1)
            ((objGet fields "reason").getD (.str "Unknown Rejection")))) := by
  have ht : ¬ t = "" := by
    intro ht
    have hnone : jsonLoads (cleanResponse "") = none := rfl
    rw [ht, hnone] at hp
    cases hp
  have hver : verify_image mode (.resp (some t)) =
      (false, (objGet fields "reason").getD (.str "Unknown Rejection")) := by
    unfold verify_image
    rw [if_neg hm]
    simp only [if_neg ht, hp, hs]
    simp
  refine ⟨hver, ?_⟩
  intro cfg w v rem a le r img hmode hva hw hb he ha
  exact genLoopAux_verifyFail cfg w v rem a le r img _ hw hb he ha
    (by rw [hmode, hva]; exact hver)

theorem claim10_amended_status_fail_witness :
    verify_image "STRICT"
        (.resp (some "\x7b\"status\": \"FAIL\", \"reason\": \"vertical text\"\x7d")) =
      (false, (objGet [("status", .str "FAIL"), ("reason", .str "vertical text")]
        "reason").getD (.str "Unknown Rejection")) ∧
    genLoopAux baseCfg okWorker failVerifier (2 + 1) 0 (.str "") =
      prependVer 0 (promptAt baseCfg 0 (.str ""))
        (currentTemp baseCfg.temperature 0)
        (genLoopAux baseCfg okWorker failVerifier 2 1
          ((objGet [("status", .str "FAIL"), ("reason", .str "vertical text")]
            "reason").getD (.str "Unknown Rejection"))) :=
  ⟨(claim10_amended_status_fail "STRICT"
      "\x7b\"status\": \"FAIL\", \"reason\": \"vertical text\"\x7d"
      [("status", .str "FAIL"), ("reason", .str "vertical text")]
      (by decide) rfl rfl).1,
    (claim10_amended_status_fail "STRICT"
      "\x7b\"status\": \"FAIL\", \"reason\": \"vertical text\"\x7d"
      [("status", .str "FAIL"), ("reason", .str "vertical text")]
      (by decide) rfl rfl).2 baseCfg okWorker failVerifier 2 0 (.str "")
      ⟨["STOP"], [some 7], none⟩ 7 rfl rfl rfl rfl rfl (by decide)⟩

end App
